import Mathlib

/-!
Verification development for the SIP request distributor
(`res_pjsip_distributor.c`): shallow embedding of the distributor hook,
the hashing fallback, the endpoint identifier, the authenticator, the
distribute task, the outbound serializer recording and the dialog
annotation, together with theorems checking the specification's claims.

Machine integers are modelled as `Nat` bit patterns with explicit
`% 2^32` wrap (two's complement `int`) and `% 2^64` for the unsigned
`size_t` conversion; `char` is taken as signed, as on x86-64 Linux.
-/

namespace SipDist

/-- A serializer (`ast_taskprocessor`): a named FIFO task queue.  Only the
name is observable to the code under study. -/
structure Serializer where
  sname : String
deriving DecidableEq, Repr

/-- A SIP endpoint.  The artificial (synthetic) endpoint created by
`create_artificial_endpoint` is distinguished from configured ones. -/
inductive Endpoint where
  | artificial : Endpoint
  | real : Nat → Endpoint
deriving DecidableEq, Repr

/-- SIP request methods, as compared by `pjsip_method_cmp` /
`method.id` in the source. -/
inductive SipMethod where
  | invite : SipMethod
  | ack : SipMethod
  | bye : SipMethod
  | cancel : SipMethod
  | other : String → SipMethod
deriving DecidableEq, Repr

/-! ## Hashing (`pjstr_hash_add`, `pjstr_hash`, lines 268-297)

`hash = hash * 33 ^ *pos++` on a 32-bit `int`, bytes read through a
(signed) `char` pointer.  We carry the 32-bit two's-complement bit
pattern as a `Nat < 2^32`. -/

/-- Bit pattern of a (signed) `char` holding byte `c` after integer
promotion to 32-bit `int`: bytes ≥ 128 sign-extend. -/
def charExt (c : Nat) : Nat :=
  let b := c % 256
  if b < 128 then b else 2 ^ 32 - 256 + b

/-- One step of the loop body `hash = hash * 33 ^ *pos++` (32-bit wrap,
`*` binds tighter than `^` in C). -/
def hashStep (h c : Nat) : Nat :=
  Nat.xor (h * 33 % 2 ^ 32) (charExt c)

/-- `pjstr_hash_add`: fold the DJB2-xor step over the bytes of the
string, starting from the given hash. -/
def pjstr_hash_add (s : List Nat) (h : Nat) : Nat :=
  s.foldl hashStep h

/-- `pjstr_hash`: hash a string from the seed 5381. -/
def pjstr_hash (s : List Nat) : Nat :=
  pjstr_hash_add s 5381

/-- Signed value of a 32-bit pattern (two's complement `int`). -/
def toSigned32 (p : Nat) : Int :=
  if p < 2 ^ 31 then (p : Int) else (p : Int) - 2 ^ 32

/-- C `abs` on 32-bit `int`: negation of `INT_MIN` wraps back to
`INT_MIN`; every other value maps to its absolute value. -/
def cAbs32 (x : Int) : Int :=
  if x = -(2 ^ 31) then x else (x.natAbs : Int)

/-- Conversion of a signed value to `size_t` (64-bit unsigned), as in
`hash % ARRAY_LEN(distributor_pool)` where `ARRAY_LEN` has type
`size_t`. -/
def asSizeT (x : Int) : Nat :=
  (x % (2 ^ 64 : Int)).toNat

/-- `DISTRIBUTOR_POOL_SIZE` -/
def POOL_SIZE : Nat := 31

/-- The pool bucket computed by `ast_sip_get_distributor_serializer`
(lines 315-320): DJB2-xor hash of Call-ID then remote tag, `abs`,
then `%` against the `size_t` array length. -/
def distBucket (callId remoteTag : List Nat) : Nat :=
  asSizeT (cAbs32 (toSigned32 (pjstr_hash_add remoteTag (pjstr_hash callId)))) % POOL_SIZE

theorem hashStep_lt (h c : Nat) : hashStep h c < 2 ^ 32 := by
  have h1 : h * 33 % 2 ^ 32 < 2 ^ 32 := Nat.mod_lt _ (by norm_num)
  have h2 : charExt c < 2 ^ 32 := by
    have hb : c % 256 < 256 := Nat.mod_lt _ (by norm_num)
    unfold charExt
    by_cases hlt : c % 256 < 128 <;> simp only [hlt, if_true, if_false] <;> omega
  exact Nat.xor_lt_two_pow h1 h2

theorem pjstr_hash_add_lt (s : List Nat) (h : Nat) (hh : h < 2 ^ 32) :
    pjstr_hash_add s h < 2 ^ 32 := by
  induction s generalizing h with
  | nil => exact hh
  | cons c rest ih => exact ih _ (hashStep_lt h c)

theorem pjstr_hash_lt (s : List Nat) : pjstr_hash s < 2 ^ 32 :=
  pjstr_hash_add_lt s 5381 (by norm_num)

/-- The bucket as a `Fin POOL_SIZE` index into the pool array. -/
def distBucketFin (callId remoteTag : List Nat) : Fin POOL_SIZE :=
  ⟨distBucket callId remoteTag, Nat.mod_lt _ (by norm_num [POOL_SIZE])⟩

/-- `ast_sip_get_distributor_serializer` (lines 299-326), for a message
known to be present: remote tag is the From tag for a request and the
To tag for a response; the serializer is the pool entry at the hashed
bucket.  The pool is total between init-complete and shutdown. -/
def get_distributor_serializer (isResponse : Bool)
    (callId fromTag toTag : List Nat) (pool : Fin POOL_SIZE → Serializer) :
    Serializer :=
  let remoteTag := if isResponse then toTag else fromTag
  pool (distBucketFin callId remoteTag)

/-! ## Dialog annotation (`struct distributor_dialog_data`, lines 130-188) -/

/-- `struct distributor_dialog_data`: per-dialog serializer and endpoint. -/
structure DistributorDialogData where
  serializer : Option Serializer
  endpoint : Option Endpoint
deriving DecidableEq, Repr

/-- A library-owned dialog, reduced to what the distributor touches: the
module-data slot for `distributor_mod.id` and a count of annotation
records allocated from the dialog's pool. -/
structure Dialog where
  modData : Option DistributorDialogData
  allocCount : Nat
deriving DecidableEq, Repr

/-- `distributor_dialog_data_alloc` (lines 143-151): `PJ_POOL_ZALLOC_T`
produces a zero-filled record (both pointers null). -/
def distributor_dialog_data_alloc : DistributorDialogData :=
  { serializer := none, endpoint := none }

/-- `ast_sip_dialog_set_serializer` (lines 153-163): fetch the module
data, allocate a zeroed record if absent, then store the serializer. -/
def ast_sip_dialog_set_serializer (dlg : Dialog) (s : Option Serializer) :
    Dialog :=
  match dlg.modData with
  | none =>
      { modData := some { distributor_dialog_data_alloc with serializer := s },
        allocCount := dlg.allocCount + 1 }
  | some d =>
      { modData := some { d with serializer := s }, allocCount := dlg.allocCount }

/-- `ast_sip_dialog_set_endpoint` (lines 165-175): fetch the module
data, allocate a zeroed record if absent, then store the endpoint. -/
def ast_sip_dialog_set_endpoint (dlg : Dialog) (e : Option Endpoint) :
    Dialog :=
  match dlg.modData with
  | none =>
      { modData := some { distributor_dialog_data_alloc with endpoint := e },
        allocCount := dlg.allocCount + 1 }
  | some d =>
      { modData := some { d with endpoint := e }, allocCount := dlg.allocCount }

/-! ## Outbound recording (`record_serializer`, lines 55-78) -/

/-- `PJ_SUCCESS` -/
def PJ_SUCCESS : Nat := 0

/-- A transmit buffer, reduced to the distributor's module-data slot
(the recorded serializer name) and a count of `pj_pool_alloc` calls on
its arena. -/
structure TxData where
  modSlot : Option String
  allocCount : Nat
deriving DecidableEq, Repr

/-- `record_serializer` (lines 55-78): if a current serializer exists
and its name is non-empty and differs from the name already stored in
the transmit buffer's slot (or the slot is empty), copy the name into
the arena and store it; otherwise do nothing.  Returns `PJ_SUCCESS`. -/
def record_serializer (current : Option Serializer) (t : TxData) :
    TxData × Nat :=
  match current with
  | none => (t, PJ_SUCCESS)
  | some s =>
      let name := s.sname
      if name ≠ "" ∧ t.modSlot ≠ some name then
        ({ modSlot := some name, allocCount := t.allocCount + 1 }, PJ_SUCCESS)
      else
        (t, PJ_SUCCESS)

/-! ## Response-side transaction affinity (`find_request_serializer`,
lines 90-128) -/

/-- A UAC transaction, reduced to its last transmitted request. -/
structure PjTransaction where
  lastTx : Option TxData
deriving DecidableEq, Repr

/-- `find_request_serializer` (lines 90-128): if the transaction lookup
matched, and its last transmitted request records a non-empty
serializer name, look the serializer up by that name
(`ast_taskprocessor_get` with `TPS_REF_IF_EXISTS`). -/
def find_request_serializer (tsx : Option PjTransaction)
    (byName : String → Option Serializer) : Option Serializer :=
  match tsx with
  | none => none
  | some t =>
      match t.lastTx with
      | none => none
      | some tx =>
          match tx.modSlot with
          | none => none
          | some name => if name = "" then none else byName name

/-! ## The distributor hook (`distributor`, lines 336-427) -/

/-- Input to one run of the `distributor` hook: the message fields it
reads, the results of the library lookups it performs, and the success
of the clone and enqueue operations. -/
structure DistInput where
  fullyBooted : Bool
  isResponse : Bool
  method : SipMethod
  callId : List Nat
  fromTag : List Nat
  toTag : List Nat
  dlg : Option Dialog
  uacTsx : Option PjTransaction
  byName : String → Option Serializer
  overload : Bool
  pool : Fin POOL_SIZE → Serializer
  cloneOk : Bool
  pushOk : Serializer → Bool

/-- Observable outcome of one run of the `distributor` hook. -/
structure DistResult where
  consumed : Bool
  serializerChosen : Option Serializer
  enqueued : Option Serializer
  statelessSent : List Nat
  cloneEndpoint : Option Endpoint
  endpointReleased : Bool
  cloneFreed : Bool
  serializerReleased : Bool
  usedInvalidClone : Bool
deriving DecidableEq, Repr

/-- Outcome of the paths that return `PJ_TRUE` without doing anything
(not booted, overload shed). -/
def consumedNoAction : DistResult :=
  { consumed := true, serializerChosen := none, enqueued := none,
    statelessSent := [], cloneEndpoint := none, endpointReleased := false,
    cloneFreed := false, serializerReleased := false,
    usedInvalidClone := false }

/-- The dialog annotation the hook reads (`pjsip_dlg_get_mod_data`,
line 355), when a dialog was found. -/
def foundDist (inp : DistInput) : Option DistributorDialogData :=
  inp.dlg.bind (fun d => d.modData)

/-- The tail of `distributor` once a serializer is chosen (lines
413-426): `pjsip_rx_data_clone` is called with its status ignored; if
the dialog annotation exists, the (bumped) dialog endpoint is written
into the clone's endpoint slot; `ast_sip_push_task` enqueues the
distribute task, and on push failure the clone's endpoint reference is
released and the clone freed; the serializer reference is always
released and the hook returns `PJ_TRUE`.  `usedInvalidClone` records
that the code accessed the clone pointer although cloning failed. -/
def dispatchTail (inp : DistInput) (dist : Option DistributorDialogData)
    (s : Serializer) : DistResult :=
  { consumed := true
    serializerChosen := some s
    enqueued := if inp.pushOk s then some s else none
    statelessSent := []
    cloneEndpoint := dist.bind (fun d => d.endpoint)
    endpointReleased := !inp.pushOk s
    cloneFreed := !inp.pushOk s
    serializerReleased := true
    usedInvalidClone := !inp.cloneOk }

/-- `distributor` (lines 336-427). -/
def distributor (inp : DistInput) : DistResult :=
  if !inp.fullyBooted then
    consumedNoAction
  else
    let dist := foundDist inp
    match dist.bind (fun d => d.serializer) with
    | some s => dispatchTail inp dist s
    | none =>
        if inp.isResponse then
          match find_request_serializer inp.uacTsx inp.byName with
          | some s => dispatchTail inp dist s
          | none =>
              if inp.overload then
                consumedNoAction
              else
                dispatchTail inp dist
                  (get_distributor_serializer inp.isResponse inp.callId
                    inp.fromTag inp.toTag inp.pool)
        else if inp.method = SipMethod.cancel ∨ inp.method = SipMethod.bye then
          { consumedNoAction with statelessSent := [481] }
        else if inp.overload then
          consumedNoAction
        else
          dispatchTail inp dist
            (get_distributor_serializer inp.isResponse inp.callId
              inp.fromTag inp.toTag inp.pool)

/-! ## Endpoint identifier (`endpoint_lookup`, lines 486-519) -/

/-- Input to `endpoint_lookup`: the request method, the endpoint
already stored in the receive buffer's slot, and the identifier
service's answer. -/
structure LookupInput where
  method : SipMethod
  preEndpoint : Option Endpoint
  identified : Option Endpoint
deriving DecidableEq, Repr

/-- Outcome of `endpoint_lookup`. -/
structure LookupResult where
  slotAfter : Option Endpoint
  loggedUnidentified : Bool
  securityEvent : Bool
  consumed : Bool
deriving DecidableEq, Repr

/-- `endpoint_lookup` (lines 486-519): keep a pre-attached endpoint; else
ask the identifier service; on failure for non-ACK, substitute the
artificial endpoint, log the unidentified request and report the
security event; on failure for ACK, store null.  Always `PJ_FALSE`. -/
def endpoint_lookup (inp : LookupInput) : LookupResult :=
  let is_ack := inp.method = SipMethod.ack
  match inp.preEndpoint with
  | some e =>
      { slotAfter := some e, loggedUnidentified := false,
        securityEvent := false, consumed := false }
  | none =>
      match inp.identified with
      | some e =>
          { slotAfter := some e, loggedUnidentified := false,
            securityEvent := false, consumed := false }
      | none =>
          if is_ack then
            { slotAfter := none, loggedUnidentified := false,
              securityEvent := false, consumed := false }
          else
            { slotAfter := some Endpoint.artificial,
              loggedUnidentified := true, securityEvent := true,
              consumed := false }

/-! ## Authenticator (`authenticate`, lines 521-554) -/

/-- Verdicts of `ast_sip_check_authentication`. -/
inductive AuthVerdict where
  | challenge : AuthVerdict
  | success : AuthVerdict
  | failed : AuthVerdict
  | error : AuthVerdict
deriving DecidableEq, Repr

/-- Input to `authenticate`: the request method, the endpoint stored in
the receive buffer's slot, and the oracles
`ast_sip_requires_authentication` and `ast_sip_check_authentication`. -/
structure AuthInput where
  method : SipMethod
  endpoint : Option Endpoint
  requiresAuth : Bool
  verdict : AuthVerdict
deriving DecidableEq, Repr

/-- Outcome of `authenticate`. -/
structure AuthResult where
  consumed : Bool
  built401 : Bool
  sent401 : Bool
  discarded401 : Bool
  sent500 : Bool
deriving DecidableEq, Repr

/-- The `ast_assert(endpoint != NULL)` at the top of `authenticate`
(line 526). -/
def authAssertHolds (inp : AuthInput) : Bool :=
  inp.endpoint.isSome

/-- `authenticate` (lines 521-554). -/
def authenticate (inp : AuthInput) : AuthResult :=
  let is_ack := inp.method = SipMethod.ack
  if ¬ is_ack ∧ inp.requiresAuth then
    match inp.verdict with
    | AuthVerdict.challenge =>
        { consumed := true, built401 := true, sent401 := true,
          discarded401 := false, sent500 := false }
    | AuthVerdict.success =>
        { consumed := false, built401 := true, sent401 := false,
          discarded401 := true, sent500 := false }
    | AuthVerdict.failed =>
        { consumed := true, built401 := true, sent401 := true,
          discarded401 := false, sent500 := false }
    | AuthVerdict.error =>
        { consumed := true, built401 := true, sent401 := false,
          discarded401 := true, sent500 := true }
  else
    { consumed := false, built401 := false, sent401 := false,
      discarded401 := false, sent500 := false }

/-! ## The distribute task (`distribute`, lines 562-586) -/

/-- Input to the `distribute` task: the cloned message's type and
method, the pipeline's answer, and the endpoint stored on the clone. -/
structure DistributeInput where
  isRequest : Bool
  method : SipMethod
  handled : Bool
  endpoint : Option Endpoint
deriving DecidableEq, Repr

/-- Outcome of the `distribute` task. -/
structure DistributeResult where
  startModIsDistributor : Bool
  idxAfterStart : Nat
  sent501 : Bool
  endpointReleases : Nat
  cloneFreed : Bool
  retval : Nat
deriving DecidableEq, Repr

/-- `distribute` (lines 562-586): re-submit the clone to the pipeline
starting just after the distributor module; send a stateless 501 when
the pipeline did not handle a non-ACK request; release the endpoint
reference stored on the clone (`ao2_cleanup`, a no-op on null) and free
the clone; return 0. -/
def distribute (inp : DistributeInput) : DistributeResult :=
  let is_ack := inp.isRequest ∧ inp.method = SipMethod.ack
  { startModIsDistributor := true
    idxAfterStart := 1
    sent501 := !inp.handled && (inp.isRequest && !(decide is_ack))
    endpointReleases := match inp.endpoint with
                        | some _ => 1
                        | none => 0
    cloneFreed := true
    retval := 0 }

/-! ## Claim C4: the hash fallback bucket -/

theorem bucket_eq_of_ne_intmin (p : Nat) (hp : p < 2 ^ 32)
    (hne : toSigned32 p ≠ -(2 ^ 31)) :
    asSizeT (cAbs32 (toSigned32 p)) % POOL_SIZE =
      (toSigned32 p).natAbs % POOL_SIZE := by
  unfold toSigned32 cAbs32 asSizeT POOL_SIZE at *
  by_cases hlt : p < 2 ^ 31
  · rw [if_pos hlt] at hne ⊢
    rw [if_neg (by omega : ¬((p : Int) = -(2 ^ 31)))]
    omega
  · rw [if_neg hlt] at hne ⊢
    rw [if_neg hne]
    omega

/-- Claim C4 (amended): for every Call-ID and tag byte string, the pool
bucket chosen by the hash fallback lies in [0, 31); and whenever the
wrapped 32-bit hash differs from -2^31, it equals abs(h) mod 31.  (At
h = -2^31, C's `abs` wraps back to -2^31 and the conversion to the
unsigned `size_t` array length makes the bucket (2^64 - 2^31) mod 31 =
14, not abs(h) mod 31 = 2; see the counterexample.) -/
theorem distBucket_claim (callId remoteTag : List Nat) :
    distBucket callId remoteTag < POOL_SIZE ∧
    (toSigned32 (pjstr_hash_add remoteTag (pjstr_hash callId)) ≠ -(2 ^ 31) →
      distBucket callId remoteTag =
        (toSigned32 (pjstr_hash_add remoteTag (pjstr_hash callId))).natAbs %
          POOL_SIZE) := by
  constructor
  · unfold distBucket
    exact Nat.mod_lt _ (by norm_num [POOL_SIZE])
  · intro hne
    unfold distBucket
    exact bucket_eq_of_ne_intmin _ (pjstr_hash_add_lt _ _ (pjstr_hash_lt _)) hne

/-- A Call-ID whose DJB2-xor hash is exactly 0x80000000 = -2^31 as a
32-bit `int` (bytes of the ASCII string `}??&"<`). -/
def c4CallId : List Nat := [125, 63, 63, 38, 34, 60]

/-- Claim C4 counterexample: on the Call-ID `}??&"<` with an empty tag
the wrapped hash is -2^31; the code's bucket is 14, while abs(h) mod 31
is 2, so the bucket does not equal abs(h) mod 31. -/
theorem distBucket_intmin_cex :
    toSigned32 (pjstr_hash_add [] (pjstr_hash c4CallId)) = -(2 ^ 31) ∧
    distBucket c4CallId [] = 14 ∧
    (toSigned32 (pjstr_hash_add [] (pjstr_hash c4CallId))).natAbs % POOL_SIZE = 2 ∧
    distBucket c4CallId [] ≠
      (toSigned32 (pjstr_hash_add [] (pjstr_hash c4CallId))).natAbs % POOL_SIZE :=
  ⟨by decide, by decide, by decide, by decide⟩

/-- Witness for `distBucket_claim`: the spec's own scenario, Call-ID
"a@x" and tag "f1", whose hash is not -2^31. -/
theorem distBucket_claim_witness :
    (toSigned32 (pjstr_hash_add [102, 49] (pjstr_hash [97, 64, 120])) ≠ -(2 ^ 31)) ∧
    distBucket [97, 64, 120] [102, 49] < POOL_SIZE ∧
    distBucket [97, 64, 120] [102, 49] =
      (toSigned32 (pjstr_hash_add [102, 49] (pjstr_hash [97, 64, 120]))).natAbs %
        POOL_SIZE :=
  ⟨by decide, (distBucket_claim [97, 64, 120] [102, 49]).1,
    (distBucket_claim [97, 64, 120] [102, 49]).2 (by decide)⟩

/-! ## Claim C8: `record_serializer` -/

/-- Claim C8: if there is a current serializer with a non-empty name
differing from the name stored on the transmit buffer, the name is
copied into the buffer's arena (one allocation) and stored in the
module slot; if the stored name already matches, the call is a no-op
with no allocation; and the function always returns `PJ_SUCCESS`. -/
theorem record_serializer_claim (current : Option Serializer) (t : TxData) :
    (record_serializer current t).2 = PJ_SUCCESS ∧
    (∀ s : Serializer, current = some s → s.sname ≠ "" →
      t.modSlot ≠ some s.sname →
      (record_serializer current t).1.modSlot = some s.sname ∧
      (record_serializer current t).1.allocCount = t.allocCount + 1) ∧
    (∀ s : Serializer, current = some s → t.modSlot = some s.sname →
      (record_serializer current t).1 = t) := by
  refine ⟨?_, ?_, ?_⟩
  · cases current with
    | none => rfl
    | some s =>
        unfold record_serializer
        dsimp only
        split <;> rfl
  · rintro s rfl hname hslot
    unfold record_serializer
    dsimp only
    rw [if_pos ⟨hname, hslot⟩]
    exact ⟨rfl, rfl⟩
  · rintro s rfl hslot
    unfold record_serializer
    dsimp only
    rw [if_neg (by simp [hslot])]

/-- Witness for `record_serializer_claim`: recording a fresh name
stores it with one allocation; recording an already-matching name is a
no-op; both return success. -/
theorem record_serializer_claim_witness :
    (record_serializer (some ⟨"tps0"⟩) ⟨none, 0⟩).2 = PJ_SUCCESS ∧
    ((record_serializer (some ⟨"tps0"⟩) ⟨none, 0⟩).1.modSlot = some ("tps0") ∧
      (record_serializer (some ⟨"tps0"⟩) ⟨none, 0⟩).1.allocCount = 0 + 1) ∧
    (record_serializer (some ⟨"tps0"⟩) ⟨some ("tps0"), 3⟩).1 = ⟨some ("tps0"), 3⟩ :=
  ⟨(record_serializer_claim (some ⟨"tps0"⟩) ⟨none, 0⟩).1,
    (record_serializer_claim (some ⟨"tps0"⟩) ⟨none, 0⟩).2.1 ⟨"tps0"⟩ rfl
      (by decide) (by decide),
    (record_serializer_claim (some ⟨"tps0"⟩) ⟨some ("tps0"), 3⟩).2.2 ⟨"tps0"⟩ rfl rfl⟩

/-! ## Claim C9: dialog annotation frame conditions -/

/-- Claim C9: `ast_sip_dialog_set_serializer` writes only the
serializer field of the dialog's annotation and leaves the endpoint
field unchanged; `ast_sip_dialog_set_endpoint` symmetrically; the first
of either call lazily allocates a single zero-filled annotation record
shared by both fields, and later calls allocate nothing. -/
theorem dialog_annotation_claim (dlg : Dialog) (s : Option Serializer)
    (e : Option Endpoint) :
    ((ast_sip_dialog_set_serializer dlg s).modData.bind (fun d => d.endpoint) =
      dlg.modData.bind (fun d => d.endpoint)) ∧
    ((ast_sip_dialog_set_serializer dlg s).modData.map (fun d => d.serializer) =
      some s) ∧
    ((ast_sip_dialog_set_endpoint dlg e).modData.bind (fun d => d.serializer) =
      dlg.modData.bind (fun d => d.serializer)) ∧
    ((ast_sip_dialog_set_endpoint dlg e).modData.map (fun d => d.endpoint) =
      some e) ∧
    (dlg.modData = none →
      (ast_sip_dialog_set_serializer dlg s).modData =
        some { distributor_dialog_data_alloc with serializer := s } ∧
      (ast_sip_dialog_set_serializer dlg s).allocCount = dlg.allocCount + 1 ∧
      (ast_sip_dialog_set_endpoint dlg e).modData =
        some { distributor_dialog_data_alloc with endpoint := e } ∧
      (ast_sip_dialog_set_endpoint dlg e).allocCount = dlg.allocCount + 1) ∧
    (∀ d0, dlg.modData = some d0 →
      (ast_sip_dialog_set_serializer dlg s).allocCount = dlg.allocCount ∧
      (ast_sip_dialog_set_endpoint dlg e).allocCount = dlg.allocCount) := by
  cases hm : dlg.modData with
  | none =>
      simp [ast_sip_dialog_set_serializer, ast_sip_dialog_set_endpoint, hm,
        distributor_dialog_data_alloc]
  | some d =>
      simp [ast_sip_dialog_set_serializer, ast_sip_dialog_set_endpoint, hm]

/-- Witness for `dialog_annotation_claim`: a fresh dialog allocates the
zero-filled record on the first set call; an annotated dialog does not
allocate again. -/
theorem dialog_annotation_claim_witness :
    ((ast_sip_dialog_set_serializer ⟨none, 0⟩ (some ⟨"w"⟩)).modData =
      some { distributor_dialog_data_alloc with serializer := some ⟨"w"⟩ } ∧
     (ast_sip_dialog_set_serializer ⟨none, 0⟩ (some ⟨"w"⟩)).allocCount = 0 + 1 ∧
     (ast_sip_dialog_set_endpoint ⟨none, 0⟩ (some (Endpoint.real 5))).modData =
      some { distributor_dialog_data_alloc with endpoint := some (Endpoint.real 5) } ∧
     (ast_sip_dialog_set_endpoint ⟨none, 0⟩ (some (Endpoint.real 5))).allocCount =
      0 + 1) ∧
    ((ast_sip_dialog_set_serializer
        ⟨some ⟨some ⟨"w"⟩, some (Endpoint.real 5)⟩, 1⟩ none).allocCount = 1 ∧
     (ast_sip_dialog_set_endpoint
        ⟨some ⟨some ⟨"w"⟩, some (Endpoint.real 5)⟩, 1⟩ none).allocCount = 1) :=
  ⟨(dialog_annotation_claim ⟨none, 0⟩ (some ⟨"w"⟩)
      (some (Endpoint.real 5))).2.2.2.2.1 rfl,
    (dialog_annotation_claim ⟨some ⟨some ⟨"w"⟩, some (Endpoint.real 5)⟩, 1⟩
      none none).2.2.2.2.2 ⟨some ⟨"w"⟩, some (Endpoint.real 5)⟩ rfl⟩

/-! ## Claim C5: the authenticator's verdict table -/

/-- Modelled from claim C5's words: for an ACK request, or when the
endpoint does not require authentication, do nothing and do not
consume; otherwise build a 401 and act on the verdict: CHALLENGE sends
the 401 and consumes; SUCCESS discards the 401 and does not consume;
FAILED sends the 401 and consumes; ERROR discards the 401, replies with
a stateless 500, and consumes. -/
def claimAuthOutcome (inp : AuthInput) : AuthResult :=
  if inp.method = SipMethod.ack then
    { consumed := false, built401 := false, sent401 := false,
      discarded401 := false, sent500 := false }
  else if inp.requiresAuth then
    match inp.verdict with
    | AuthVerdict.challenge =>
        { consumed := true, built401 := true, sent401 := true,
          discarded401 := false, sent500 := false }
    | AuthVerdict.success =>
        { consumed := false, built401 := true, sent401 := false,
          discarded401 := true, sent500 := false }
    | AuthVerdict.failed =>
        { consumed := true, built401 := true, sent401 := true,
          discarded401 := false, sent500 := false }
    | AuthVerdict.error =>
        { consumed := true, built401 := true, sent401 := false,
          discarded401 := true, sent500 := true }
  else
    { consumed := false, built401 := false, sent401 := false,
      discarded401 := false, sent500 := false }

/-- Claim C5: `authenticate` realizes exactly the claimed case table on
every input. -/
theorem authenticate_claim (inp : AuthInput) :
    authenticate inp = claimAuthOutcome inp := by
  unfold authenticate claimAuthOutcome
  by_cases ha : inp.method = SipMethod.ack
  · simp [ha]
  · by_cases hr : inp.requiresAuth
    · cases hv : inp.verdict <;> simp [ha, hr, hv]
    · simp [ha, hr]

/-! ## Claim C6: ACK with unidentifiable endpoint -/

/-- Claim C6: for an ACK request with no pre-attached endpoint and a
null answer from the identifier service, `endpoint_lookup` attaches a
null endpoint (not the synthetic one), emits no unidentified-request
log and no security event, lets the pipeline continue, and
`authenticate` subsequently builds and sends no 401 for that ACK. -/
theorem ack_unidentified_claim (linp : LookupInput)
    (ha : linp.method = SipMethod.ack) (hp : linp.preEndpoint = none)
    (hi : linp.identified = none) (ra : Bool) (v : AuthVerdict) :
    (endpoint_lookup linp).slotAfter = none ∧
    (endpoint_lookup linp).loggedUnidentified = false ∧
    (endpoint_lookup linp).securityEvent = false ∧
    (endpoint_lookup linp).consumed = false ∧
    (authenticate { method := linp.method,
                    endpoint := (endpoint_lookup linp).slotAfter,
                    requiresAuth := ra, verdict := v }).built401 = false ∧
    (authenticate { method := linp.method,
                    endpoint := (endpoint_lookup linp).slotAfter,
                    requiresAuth := ra, verdict := v }).sent401 = false := by
  simp [endpoint_lookup, authenticate, ha, hp, hi]

/-- Witness for `ack_unidentified_claim`: a concrete unidentifiable
ACK, with `requires_authentication` answering true and a CHALLENGE
verdict, still yields no 401. -/
theorem ack_unidentified_claim_witness :
    (endpoint_lookup ⟨SipMethod.ack, none, none⟩).slotAfter = none ∧
    (endpoint_lookup ⟨SipMethod.ack, none, none⟩).loggedUnidentified = false ∧
    (endpoint_lookup ⟨SipMethod.ack, none, none⟩).securityEvent = false ∧
    (endpoint_lookup ⟨SipMethod.ack, none, none⟩).consumed = false ∧
    (authenticate { method := SipMethod.ack,
                    endpoint := (endpoint_lookup ⟨SipMethod.ack, none, none⟩).slotAfter,
                    requiresAuth := true,
                    verdict := AuthVerdict.challenge }).built401 = false ∧
    (authenticate { method := SipMethod.ack,
                    endpoint := (endpoint_lookup ⟨SipMethod.ack, none, none⟩).slotAfter,
                    requiresAuth := true,
                    verdict := AuthVerdict.challenge }).sent401 = false :=
  ack_unidentified_claim ⟨SipMethod.ack, none, none⟩ rfl rfl rfl true
    AuthVerdict.challenge

/-! ## Claim C7: the distribute task -/

/-- Claim C7: the distribute task re-submits the clone to the pipeline
starting after the Distributor module; a stateless 501 is sent exactly
when the pipeline reports not-handled on a request other than ACK; and
when the task returns, the endpoint reference attached to the clone has
been released exactly once and the clone has been freed. -/
theorem distribute_claim (inp : DistributeInput) :
    (distribute inp).startModIsDistributor = true ∧
    (distribute inp).idxAfterStart = 1 ∧
    ((distribute inp).sent501 = true ↔
      (inp.handled = false ∧ inp.isRequest = true ∧
        inp.method ≠ SipMethod.ack)) ∧
    (distribute inp).endpointReleases =
      (if inp.endpoint.isSome then 1 else 0) ∧
    (distribute inp).cloneFreed = true := by
  unfold distribute
  refine ⟨rfl, rfl, ?_, ?_, rfl⟩
  · cases hh : inp.handled <;> cases hr : inp.isRequest <;>
      by_cases hm : inp.method = SipMethod.ack <;> simp [hh, hr, hm]
  · cases he : inp.endpoint <;> simp [he]

/-! ## Claim C10: the authenticate assertion -/

/-- A dispatched ACK request with no pre-attached endpoint and an
unidentifiable source. -/
def c10LookupInput : LookupInput := ⟨SipMethod.ack, none, none⟩

/-- Claim C10 counterexample: after `endpoint_lookup` on an
unidentifiable ACK the receive buffer's endpoint slot is null, so the
assertion `endpoint != NULL` in `authenticate` is violated for that
dispatched request. -/
theorem authenticate_assert_cex :
    (endpoint_lookup c10LookupInput).slotAfter = none ∧
    authAssertHolds { method := SipMethod.ack,
                      endpoint := (endpoint_lookup c10LookupInput).slotAfter,
                      requiresAuth := true,
                      verdict := AuthVerdict.challenge } = false :=
  ⟨rfl, rfl⟩

/-- Claim C10 (amended): for every non-ACK request reaching
`authenticate` after `endpoint_lookup` has run, the endpoint stored in
the receive buffer's module slot is non-null and the assertion holds;
for an unidentifiable ACK the slot is null and the assertion fails. -/
theorem authenticate_assert_claim (linp : LookupInput)
    (hm : linp.method ≠ SipMethod.ack) (ra : Bool) (v : AuthVerdict) :
    (endpoint_lookup linp).slotAfter.isSome = true ∧
    authAssertHolds { method := linp.method,
                      endpoint := (endpoint_lookup linp).slotAfter,
                      requiresAuth := ra, verdict := v } = true := by
  have hs : (endpoint_lookup linp).slotAfter.isSome = true := by
    unfold endpoint_lookup
    cases hp : linp.preEndpoint with
    | some e => rfl
    | none =>
        cases hi : linp.identified with
        | some e => rfl
        | none => simp [hm]
  exact ⟨hs, hs⟩

/-- Witness for `authenticate_assert_claim`: an unidentifiable INVITE
gets the artificial endpoint attached, so the assertion holds. -/
theorem authenticate_assert_claim_witness :
    (endpoint_lookup ⟨SipMethod.invite, none, none⟩).slotAfter.isSome = true ∧
    authAssertHolds { method := SipMethod.invite,
                      endpoint := (endpoint_lookup
                        ⟨SipMethod.invite, none, none⟩).slotAfter,
                      requiresAuth := false,
                      verdict := AuthVerdict.success } = true :=
  authenticate_assert_claim ⟨SipMethod.invite, none, none⟩ (by decide) false
    AuthVerdict.success

/-! ## Claim C1: the distributor's ordered decision procedure -/

/-- Possible outcomes of claim C1's decision procedure. -/
inductive ClaimDecision where
  | useSerializer : Serializer → ClaimDecision
  | dropResponseOverload : ClaimDecision
  | reply481 : ClaimDecision
  | dropRequestOverload : ClaimDecision
deriving DecidableEq, Repr

/-- Modelled from claim C1's words: the ordered decision procedure in
which the first clause yielding a serializer wins — (1) the serializer
stored in the found dialog's annotation; else (2) for a response, the
serializer looked up by the name recorded on the matched UAC
transaction's last transmitted request; else (3) for a response under
the overload signal, silent drop; else (4) for a response, the pool
serializer chosen by hash of (Call-ID, to-tag); else (5) for a BYE or
CANCEL request, a stateless 481 with no enqueue; else (6) for a request
under the overload signal, silent drop; else (7) the pool serializer
chosen by hash of (Call-ID, from-tag). -/
def claimDecision (inp : DistInput) : ClaimDecision :=
  match (foundDist inp).bind (fun d => d.serializer) with
  | some s => ClaimDecision.useSerializer s
  | none =>
      if inp.isResponse then
        match find_request_serializer inp.uacTsx inp.byName with
        | some s => ClaimDecision.useSerializer s
        | none =>
            if inp.overload then
              ClaimDecision.dropResponseOverload
            else
              ClaimDecision.useSerializer
                (inp.pool (distBucketFin inp.callId inp.toTag))
      else if inp.method = SipMethod.bye ∨ inp.method = SipMethod.cancel then
        ClaimDecision.reply481
      else if inp.overload then
        ClaimDecision.dropRequestOverload
      else
        ClaimDecision.useSerializer
          (inp.pool (distBucketFin inp.callId inp.fromTag))

/-- Claim C1: for every inbound message received while fully booted,
the distributor resolves the target serializer exactly by the claimed
ordered decision procedure, and in every case the hook returns
consumed. -/
theorem distributor_claim (inp : DistInput) (hb : inp.fullyBooted = true) :
    (distributor inp).consumed = true ∧
    (match claimDecision inp with
     | ClaimDecision.useSerializer s =>
         (distributor inp).serializerChosen = some s ∧
         (distributor inp).statelessSent = []
     | ClaimDecision.dropResponseOverload => distributor inp = consumedNoAction
     | ClaimDecision.reply481 =>
         distributor inp = { consumedNoAction with statelessSent := [481] }
     | ClaimDecision.dropRequestOverload =>
         distributor inp = consumedNoAction) := by
  cases hds : (foundDist inp).bind (fun d => d.serializer) with
  | some s => simp [distributor, claimDecision, hb, hds, dispatchTail]
  | none =>
      by_cases hr : inp.isResponse = true
      · cases hfr : find_request_serializer inp.uacTsx inp.byName with
        | some s =>
            simp [distributor, claimDecision, hb, hds, hr, hfr, dispatchTail]
        | none =>
            by_cases ho : inp.overload = true
            · simp [distributor, claimDecision, hb, hds, hr, hfr, ho,
                consumedNoAction]
            · simp [distributor, claimDecision, hb, hds, hr, hfr, ho,
                dispatchTail, get_distributor_serializer]
      · by_cases hc : inp.method = SipMethod.cancel
        · simp [distributor, claimDecision, hb, hds, hr, hc, consumedNoAction]
        · by_cases hby : inp.method = SipMethod.bye
          · simp [distributor, claimDecision, hb, hds, hr, hc, hby,
              consumedNoAction]
          · by_cases ho : inp.overload = true
            · simp [distributor, claimDecision, hb, hds, hr, hc, hby, ho,
                consumedNoAction]
            · simp [distributor, claimDecision, hb, hds, hr, hc, hby, ho,
                dispatchTail, get_distributor_serializer]

/-- The spec's first scenario: an out-of-dialog INVITE while fully
booted and not overloaded, Call-ID "a@x", From tag "f1". -/
def c1Input : DistInput :=
  { fullyBooted := true, isResponse := false, method := SipMethod.invite,
    callId := [97, 64, 120], fromTag := [102, 49], toTag := [],
    dlg := none, uacTsx := none, byName := fun _ => none,
    overload := false, pool := fun i => ⟨"pjsip/distributor-" ++ toString i.val⟩,
    cloneOk := true, pushOk := fun _ => true }

/-- Witness for `distributor_claim` at the spec's INVITE scenario. -/
theorem distributor_claim_witness :
    (distributor c1Input).consumed = true ∧
    (match claimDecision c1Input with
     | ClaimDecision.useSerializer s =>
         (distributor c1Input).serializerChosen = some s ∧
         (distributor c1Input).statelessSent = []
     | ClaimDecision.dropResponseOverload =>
         distributor c1Input = consumedNoAction
     | ClaimDecision.reply481 =>
         distributor c1Input = { consumedNoAction with statelessSent := [481] }
     | ClaimDecision.dropRequestOverload =>
         distributor c1Input = consumedNoAction) :=
  distributor_claim c1Input rfl

/-! ## Claim C2: overload shedding -/

/-- A BYE request with no dialog affinity arriving while the overload
signal is set. -/
def c2ByeInput : DistInput :=
  { fullyBooted := true, isResponse := false, method := SipMethod.bye,
    callId := [110], fromTag := [], toTag := [],
    dlg := none, uacTsx := none, byName := fun _ => none,
    overload := true, pool := fun _ => ⟨"pjsip/distributor-0"⟩,
    cloneOk := true, pushOk := fun _ => true }

/-- Claim C2 counterexample: while overloaded, a BYE request with no
dialog-annotation serializer and no matched transaction serializer is
answered with a stateless 481 — an outbound transmission — because the
BYE/CANCEL clause precedes the overload-shed clause. -/
theorem overload_shed_cex :
    c2ByeInput.overload = true ∧
    (foundDist c2ByeInput).bind (fun d => d.serializer) = none ∧
    find_request_serializer c2ByeInput.uacTsx c2ByeInput.byName = none ∧
    (distributor c2ByeInput).statelessSent = [481] :=
  ⟨rfl, rfl, rfl, rfl⟩

/-- Claim C2 (amended): whenever the overload flag is set, processing
any inbound message (while fully booted) that has no dialog-annotation
serializer and no matched transaction serializer never results in an
enqueue onto a serializer; and, unless the message is a BYE or CANCEL
request — which is answered with a stateless 481 even under overload —
it never results in an outbound transmission. -/
theorem overload_shed_claim (inp : DistInput)
    (hb : inp.fullyBooted = true) (ho : inp.overload = true)
    (hd : (foundDist inp).bind (fun d => d.serializer) = none)
    (ht : inp.isResponse = true →
      find_request_serializer inp.uacTsx inp.byName = none) :
    (distributor inp).enqueued = none ∧
    (inp.isResponse = true ∨
        (inp.method ≠ SipMethod.bye ∧ inp.method ≠ SipMethod.cancel) →
      (distributor inp).statelessSent = []) ∧
    (inp.isResponse = false →
        (inp.method = SipMethod.bye ∨ inp.method = SipMethod.cancel) →
      (distributor inp).statelessSent = [481]) := by
  by_cases hr : inp.isResponse = true
  · have hfr := ht hr
    simp [distributor, hb, hd, hr, hfr, ho, consumedNoAction]
  · by_cases hc : inp.method = SipMethod.cancel
    · simp [distributor, hb, hd, hr, hc, consumedNoAction]
    · by_cases hby : inp.method = SipMethod.bye
      · simp [distributor, hb, hd, hr, hc, hby, consumedNoAction]
      · simp [distributor, hb, hd, hr, hc, hby, ho, consumedNoAction]

/-- An unmatched response arriving while the overload signal is set. -/
def c2RespInput : DistInput :=
  { fullyBooted := true, isResponse := true, method := SipMethod.invite,
    callId := [97], fromTag := [], toTag := [],
    dlg := none, uacTsx := none, byName := fun _ => none,
    overload := true, pool := fun _ => ⟨"pjsip/distributor-0"⟩,
    cloneOk := true, pushOk := fun _ => true }

/-- Witness for `overload_shed_claim`: an unmatched 200 response under
overload is dropped with no enqueue and no transmission. -/
theorem overload_shed_claim_witness :
    (distributor c2RespInput).enqueued = none ∧
    (distributor c2RespInput).statelessSent = [] :=
  ⟨(overload_shed_claim c2RespInput rfl rfl rfl (fun _ => rfl)).1,
    (overload_shed_claim c2RespInput rfl rfl rfl (fun _ => rfl)).2.1
      (Or.inl rfl)⟩

/-! ## Claim C3: clone and enqueue failure handling -/

/-- An out-of-dialog INVITE for which `pjsip_rx_data_clone` fails. -/
def c3CloneFailInput : DistInput :=
  { fullyBooted := true, isResponse := false, method := SipMethod.invite,
    callId := [97], fromTag := [102], toTag := [],
    dlg := none, uacTsx := none, byName := fun _ => none,
    overload := false, pool := fun _ => ⟨"pjsip/distributor-0"⟩,
    cloneOk := false, pushOk := fun _ => true }

/-- An out-of-dialog INVITE for which `ast_sip_push_task` fails. -/
def c3PushFailInput : DistInput :=
  { fullyBooted := true, isResponse := false, method := SipMethod.invite,
    callId := [97], fromTag := [102], toTag := [],
    dlg := none, uacTsx := none, byName := fun _ => none,
    overload := false, pool := fun _ => ⟨"pjsip/distributor-0"⟩,
    cloneOk := true, pushOk := fun _ => false }

/-- Claim C3, evaluated at the failing input: when cloning fails the
code (which never checks the clone status) still accesses the invalid
clone and enqueues it instead of dropping the message, so the claimed
clone-failure handling is absent; the enqueue-failure half of the claim
does hold: on push failure the endpoint reference is released, the
clone freed, nothing enqueued, and the serializer reference released. -/
theorem clone_failure_unchecked :
    ((distributor c3CloneFailInput).usedInvalidClone = true ∧
      (distributor c3CloneFailInput).enqueued ≠ none ∧
      (distributor c3CloneFailInput).cloneFreed = false) ∧
    ((distributor c3PushFailInput).enqueued = none ∧
      (distributor c3PushFailInput).endpointReleased = true ∧
      (distributor c3PushFailInput).cloneFreed = true ∧
      (distributor c3PushFailInput).serializerReleased = true) :=
  ⟨⟨rfl, by decide, rfl⟩, ⟨rfl, rfl, rfl, rfl⟩⟩

end SipDist
